import Mathlib

/-!
Shallow embedding of the Warehouse Compliance System core
(PackoutInstructionsScreen, ScannerScreen, and the api.ts service layer),
with theorems checking the natural-language specification against it.

Modelling conventions:
* AsyncStorage is a key to JSON-value association list (`Store`); the
  text layer (JSON.stringify / JSON.parse) is modelled at the JSON-tree
  level, where stringify-then-parse is the identity on trees except for
  `Date` objects, which stringify to their ISO-8601 string and parse
  back as plain strings.  Runtime values that are `Date` objects or
  strings are modelled by the sum type `JsDate`.
* Network and persistence-read outcomes are explicit parameters
  (`NetResult`, `Except Unit _`), so every handler is a pure function
  of its inputs.
* React state (`useState`) is collected into `ScreenState`; each
  handler is a function `... → ScreenState → Store → ScreenState × Store`
  mirroring the statements of the source handler in order.
-/

/-- JSON value trees (numbers restricted to integers, which covers every
number produced by this code base: ids, indices, quantities). -/
inductive Json where
  | null : Json
  | bool : Bool → Json
  | num : Int → Json
  | str : String → Json
  | arr : List Json → Json
  | obj : List (String × Json) → Json
deriving Repr

/-- AsyncStorage modelled as an association list from keys to JSON values. -/
def Store := List (String × Json)

/-- AsyncStorage.getItem: first binding for the key, if any. -/
def getItem (s : Store) (k : String) : Option Json :=
  (List.find? (fun kv => kv.1 == k) s).map (fun kv => kv.2)

/-- AsyncStorage.setItem: overwrite the binding for the key. -/
def setItem (s : Store) (k : String) (v : Json) : Store :=
  (k, v) :: List.filter (fun kv => kv.1 != k) s

/-- AsyncStorage.removeItem. -/
def removeItem (s : Store) (k : String) : Store :=
  List.filter (fun kv => kv.1 != k) s

/-- AsyncStorage.getAllKeys. -/
def getAllKeys (s : Store) : List String :=
  List.map (fun kv => kv.1) s

/-- AsyncStorage.multiRemove. -/
def multiRemove (s : Store) (ks : List String) : Store :=
  List.filter (fun kv => !(ks.contains kv.1)) s

/-- A JavaScript runtime value that the TypeScript type calls `Date`:
either an actual Date object (epoch milliseconds) or, after a JSON
round trip, the ISO string it was serialized to. -/
inductive JsDate where
  | date : Nat → JsDate
  | str : String → JsDate
deriving Repr, DecidableEq

/-- One checklist entry of a PackoutStep. -/
structure ChecklistItem where
  id : Nat
  text : String
  completed : Bool
deriving Repr, DecidableEq

/-- PackoutStep, fields exactly as in the PackoutStep interface of the
packout screen. -/
structure PackoutStep where
  id : Nat
  title : String
  description : String
  required : Bool
  completed : Bool
  photoRequired : Bool
  photoTaken : Bool
  photoUri : Option String := none
  instructions : List String
  checklistItems : List ChecklistItem
deriving Repr, DecidableEq

/-- The four photo categories of the CompliancePhoto interface. -/
inductive PhotoType where
  | package : PhotoType
  | label : PhotoType
  | damage : PhotoType
  | compliance : PhotoType
deriving Repr, DecidableEq

/-- CompliancePhoto; `timestamp` is a Date object when freshly captured
and an ISO string after a persistence round trip. -/
structure CompliancePhoto where
  uri : String
  type : PhotoType
  notes : String
  timestamp : JsDate
deriving Repr, DecidableEq

/-- The useState pieces of PackoutInstructionsScreen that the workflow
engine reads or writes. -/
structure ScreenState where
  packoutSteps : List PackoutStep
  compliancePhotos : List CompliancePhoto
  currentStepIndex : Nat
  cameraType : PhotoType
  photoNotes : String
  showCamera : Bool
  showCompletionModal : Bool
deriving Repr, DecidableEq

/-- The initial packoutSteps array of the screen (five steps, transcribed
from the source including titles, instructions and checklist texts). -/
def initialPackoutSteps : List PackoutStep :=
  [ { id := 1
    , title := "Verify Order Items"
    , description := "Check all items against the order list"
    , required := true
    , completed := false
    , photoRequired := true
    , photoTaken := false
    , instructions :=
        [ "Scan or verify each item SKU"
        , "Check quantities match order"
        , "Inspect items for damage"
        , "Set aside any damaged items" ]
    , checklistItems :=
        [ { id := 1, text := "All items present", completed := false }
        , { id := 2, text := "Quantities correct", completed := false }
        , { id := 3, text := "No visible damage", completed := false } ] }
  , { id := 2
    , title := "Select Packaging"
    , description := "Choose appropriate packaging materials"
    , required := true
    , completed := false
    , photoRequired := true
    , photoTaken := false
    , instructions :=
        [ "Select box size based on items"
        , "Use bubble wrap for fragile items"
        , "Add sufficient padding material"
        , "Ensure box can close properly" ]
    , checklistItems :=
        [ { id := 1, text := "Correct box size selected", completed := false }
        , { id := 2, text := "Protective materials added", completed := false }
        , { id := 3, text := "Box closes securely", completed := false } ] }
  , { id := 3
    , title := "Pack Items"
    , description := "Carefully pack all items in the container"
    , required := true
    , completed := false
    , photoRequired := true
    , photoTaken := false
    , instructions :=
        [ "Place heavier items at bottom"
        , "Wrap fragile items individually"
        , "Fill empty spaces with padding"
        , "Ensure nothing moves when shaken" ]
    , checklistItems :=
        [ { id := 1, text := "Items packed securely", completed := false }
        , { id := 2, text := "No movement in package", completed := false }
        , { id := 3, text := "Fragile items protected", completed := false } ] }
  , { id := 4
    , title := "Apply Labels"
    , description := "Attach shipping and handling labels"
    , required := true
    , completed := false
    , photoRequired := true
    , photoTaken := false
    , instructions :=
        [ "Print shipping label"
        , "Apply label to largest flat surface"
        , "Add fragile stickers if needed"
        , "Attach return label inside package" ]
    , checklistItems :=
        [ { id := 1, text := "Shipping label applied correctly", completed := false }
        , { id := 2, text := "Address clearly visible", completed := false }
        , { id := 3, text := "Special handling labels added", completed := false } ] }
  , { id := 5
    , title := "Final Inspection"
    , description := "Perform final quality check"
    , required := true
    , completed := false
    , photoRequired := true
    , photoTaken := false
    , instructions :=
        [ "Verify all labels are secure"
        , "Check package integrity"
        , "Confirm order details match"
        , "Take final compliance photo" ]
    , checklistItems :=
        [ { id := 1, text := "Package sealed properly", completed := false }
        , { id := 2, text := "All labels secure", completed := false }
        , { id := 3, text := "Final inspection passed", completed := false } ] } ]

/-- Initial component state of PackoutInstructionsScreen. -/
def initialScreenState : ScreenState :=
  { packoutSteps := initialPackoutSteps
  , compliancePhotos := []
  , currentStepIndex := 0
  , cameraType := PhotoType.package
  , photoNotes := ""
  , showCamera := false
  , showCompletionModal := false }

/-- Left-pad a decimal number with zeros to width 2 (Date rendering). -/
def pad2 (n : Nat) : String :=
  if n < 10 then "0" ++ toString n else toString n

/-- Left-pad a decimal number with zeros to width 3 (milliseconds). -/
def pad3 (n : Nat) : String :=
  if n < 10 then "00" ++ toString n
  else if n < 100 then "0" ++ toString n
  else toString n

/-- Left-pad a decimal number with zeros to width 4 (years). -/
def pad4 (n : Nat) : String :=
  if n < 10 then "000" ++ toString n
  else if n < 100 then "00" ++ toString n
  else if n < 1000 then "0" ++ toString n
  else toString n

/-- Gregorian civil date from a day count since 1970-01-01 (the standard
era-based conversion, valid for days since the epoch). -/
def civilFromDays (z0 : Nat) : Nat × Nat × Nat :=
  let z := z0 + 719468
  let era := z / 146097
  let doe := z % 146097
  let yoe := (doe - doe / 1460 + doe / 36524 - doe / 146096) / 365
  let y := yoe + era * 400
  let doy := doe - (365 * yoe + yoe / 4 - yoe / 100)
  let mp := (5 * doy + 2) / 153
  let d := doy - (153 * mp + 2) / 5 + 1
  let m := if mp < 10 then mp + 3 else mp - 9
  (if m ≤ 2 then y + 1 else y, m, d)

/-- Date.prototype.toISOString on an epoch-milliseconds value: the
string YYYY-MM-DDTHH:mm:ss.sssZ that JSON.stringify also produces for
a Date object. -/
def dateToIso (ms : Nat) : String :=
  let days := ms / 86400000
  let rem := ms % 86400000
  let c := civilFromDays days
  pad4 c.1 ++ "-" ++ pad2 c.2.1 ++ "-" ++ pad2 c.2.2 ++ "T" ++
  pad2 (rem / 3600000) ++ ":" ++ pad2 (rem % 3600000 / 60000) ++ ":" ++
  pad2 (rem % 60000 / 1000) ++ "." ++ pad3 (rem % 1000) ++ "Z"

/-- JSON.stringify of a runtime Date-or-string value: a Date object
serializes via toISOString, a plain string serializes as itself. -/
def jsDateToJson (t : JsDate) : Json :=
  match t with
  | JsDate.date ms => Json.str (dateToIso ms)
  | JsDate.str s => Json.str s

/-- The stringify-then-parse image of a Date-or-string value: always the
plain ISO (or original) string, never a Date object again. -/
def jsDateRoundTrip (t : JsDate) : JsDate :=
  match t with
  | JsDate.date ms => JsDate.str (dateToIso ms)
  | JsDate.str s => JsDate.str s

/-- JSON.stringify image of one checklist item. -/
def checklistItemToJson (it : ChecklistItem) : Json :=
  Json.obj
    [ ("id", Json.num (Int.ofNat it.id))
    , ("text", Json.str it.text)
    , ("completed", Json.bool it.completed) ]

/-- JSON.parse image back into a checklist item (the loader assigns the
parsed structure directly; a shape that does not match yields none,
which cannot arise for values this code itself saved). -/
def jsonToChecklistItem (j : Json) : Option ChecklistItem :=
  match j with
  | Json.obj [ ("id", Json.num i), ("text", Json.str t), ("completed", Json.bool c) ] =>
      some { id := i.toNat, text := t, completed := c }
  | _ => none

/-- JSON.stringify image of one packout step; an undefined photoUri is
omitted from the object, exactly as JSON.stringify drops undefined
fields. -/
def stepToJson (st : PackoutStep) : Json :=
  Json.obj
    ([ ("id", Json.num (Int.ofNat st.id))
     , ("title", Json.str st.title)
     , ("description", Json.str st.description)
     , ("required", Json.bool st.required)
     , ("completed", Json.bool st.completed)
     , ("photoRequired", Json.bool st.photoRequired)
     , ("photoTaken", Json.bool st.photoTaken) ]
     ++ (match st.photoUri with
         | some u => [("photoUri", Json.str u)]
         | none => [])
     ++ [ ("instructions", Json.arr (st.instructions.map Json.str))
        , ("checklistItems", Json.arr (st.checklistItems.map checklistItemToJson)) ])

/-- Sequence an elementwise possibly-failing decoder over a list (structural
recursion, so it computes inside the kernel). -/
def optionMapList {α β : Type} (g : α → Option β) : List α → Option (List β)
  | [] => some []
  | a :: as =>
    match g a, optionMapList g as with
    | some b, some bs => some (b :: bs)
    | _, _ => none

/-- Decode a list of JSON strings. -/
def jsonToStringList (js : List Json) : Option (List String) :=
  optionMapList (fun j => match j with | Json.str s => some s | _ => none) js

/-- JSON.parse image back into a packout step. -/
def jsonToStep (j : Json) : Option PackoutStep :=
  match j with
  | Json.obj (("id", Json.num i) :: ("title", Json.str ti) ::
      ("description", Json.str de) :: ("required", Json.bool rq) ::
      ("completed", Json.bool co) :: ("photoRequired", Json.bool pr) ::
      ("photoTaken", Json.bool pt) :: rest) =>
    let withUri : Option String × List (String × Json) :=
      match rest with
      | ("photoUri", Json.str u) :: rest2 => (some u, rest2)
      | _ => (none, rest)
    match withUri.2 with
    | [ ("instructions", Json.arr ins), ("checklistItems", Json.arr cls) ] =>
      match jsonToStringList ins, optionMapList jsonToChecklistItem cls with
      | some ins2, some cls2 =>
          some { id := i.toNat, title := ti, description := de, required := rq
               , completed := co, photoRequired := pr, photoTaken := pt
               , photoUri := withUri.1, instructions := ins2, checklistItems := cls2 }
      | _, _ => none
    | _ => none
  | _ => none

/-- JSON.stringify image of the photo-type string union. -/
def photoTypeToJson (t : PhotoType) : Json :=
  match t with
  | PhotoType.package => Json.str "package"
  | PhotoType.label => Json.str "label"
  | PhotoType.damage => Json.str "damage"
  | PhotoType.compliance => Json.str "compliance"

/-- JSON.parse image back into a photo type. -/
def jsonToPhotoType (j : Json) : Option PhotoType :=
  match j with
  | Json.str "package" => some PhotoType.package
  | Json.str "label" => some PhotoType.label
  | Json.str "damage" => some PhotoType.damage
  | Json.str "compliance" => some PhotoType.compliance
  | _ => none

/-- JSON.stringify image of one compliance photo; a Date timestamp
serializes to its ISO string. -/
def photoToJson (p : CompliancePhoto) : Json :=
  Json.obj
    [ ("uri", Json.str p.uri)
    , ("type", photoTypeToJson p.type)
    , ("notes", Json.str p.notes)
    , ("timestamp", jsDateToJson p.timestamp) ]

/-- JSON.parse image back into a compliance photo: the timestamp comes
back as a plain string, never as a Date object. -/
def jsonToPhoto (j : Json) : Option CompliancePhoto :=
  match j with
  | Json.obj [ ("uri", Json.str u), ("type", ty), ("notes", Json.str n)
             , ("timestamp", Json.str ts) ] =>
      (jsonToPhotoType ty).map (fun ty2 =>
        { uri := u, type := ty2, notes := n, timestamp := JsDate.str ts })
  | _ => none

/-- The progress object built by savePackoutProgress, as serialized by
JSON.stringify; nowIso is the new Date().toISOString() value. -/
def progressToJson (st : ScreenState) (nowIso : String) : Json :=
  Json.obj
    [ ("steps", Json.arr (st.packoutSteps.map stepToJson))
    , ("photos", Json.arr (st.compliancePhotos.map photoToJson))
    , ("currentStep", Json.num (Int.ofNat st.currentStepIndex))
    , ("lastUpdated", Json.str nowIso) ]

/-- The packout persistence key for an order, packout_ followed by the
order id. -/
def packoutKey (orderId : Int) : String :=
  "packout_" ++ toString orderId

/-- savePackoutProgress: writes the progress object under the packout
key of the order. -/
def savePackoutProgress (orderId : Int) (nowIso : String)
    (st : ScreenState) (store : Store) : Store :=
  setItem store (packoutKey orderId) (progressToJson st nowIso)

/-- loadPackoutProgress: reads the packout key; when present, replaces
steps, photos and currentStep from the parsed JSON, using the falsy
fallbacks of the source (progress.steps or the initial steps,
progress.photos or an empty list, progress.currentStep or 0); when
absent, the state is unchanged.  A parsed shape this code did not
itself save decodes to none and is modelled as the fallback. -/
def loadPackoutProgress (orderId : Int) (st : ScreenState) (store : Store) :
    ScreenState :=
  match getItem store (packoutKey orderId) with
  | none => st
  | some j =>
    match j with
    | Json.obj fields =>
      let steps :=
        match List.find? (fun kv => kv.1 == "steps") fields with
        | some (_, Json.arr js) =>
            match optionMapList jsonToStep js with
            | some ss => ss
            | none => st.packoutSteps
        | _ => st.packoutSteps
      let photos :=
        match List.find? (fun kv => kv.1 == "photos") fields with
        | some (_, Json.arr js) =>
            match optionMapList jsonToPhoto js with
            | some ps => ps
            | none => []
        | _ => []
      let idx :=
        match List.find? (fun kv => kv.1 == "currentStep") fields with
        | some (_, Json.num n) => n.toNat
        | _ => 0
      { st with packoutSteps := steps, compliancePhotos := photos
              , currentStepIndex := idx }
    | _ => st

/-- Flip the completed flag of the first checklist item with the given
id (the source finds the item and mutates it in place). -/
def toggleFirstItem : List ChecklistItem → Nat → List ChecklistItem
  | [], _ => []
  | it :: rest, itemId =>
    if it.id == itemId then { it with completed := !it.completed } :: rest
    else it :: toggleFirstItem rest itemId

/-- handleChecklistItemToggle: when the step has an item with the given
id, flips it, recomputes the completed flag of that step from all its
checklist items and the photo state, stores the new steps and persists
the session; when no such item exists, nothing happens.  An out-of-range
stepIndex would throw in the source and is excluded by the theorems. -/
def handleChecklistItemToggle (orderId : Int) (nowIso : String)
    (stepIndex : Nat) (itemId : Nat)
    (st : ScreenState) (store : Store) : ScreenState × Store :=
  match st.packoutSteps[stepIndex]? with
  | none => (st, store)
  | some step =>
    match step.checklistItems.find? (fun it => it.id == itemId) with
    | none => (st, store)
    | some _ =>
      let newItems := toggleFirstItem step.checklistItems itemId
      let allItemsCompleted := newItems.all (fun it => it.completed)
      let photoCompleted := !step.photoRequired || step.photoTaken
      let step2 := { step with checklistItems := newItems,
                               completed := allItemsCompleted && photoCompleted }
      let st2 := { st with packoutSteps := st.packoutSteps.set stepIndex step2 }
      (st2, savePackoutProgress orderId nowIso st2 store)

/-- handleTakePhoto: records the requested category, clears the notes
field and opens the camera modal. -/
def handleTakePhoto (photoType : PhotoType) (st : ScreenState) : ScreenState :=
  { st with cameraType := photoType, photoNotes := "", showCamera := true }

/-- handleCameraCapture: marks the photo of the current step as taken
(whatever category the camera was opened with), stores the uri,
recomputes the completed flag of the current step, appends the photo to
compliancePhotos, closes the camera and persists.  nowMs is the
new Date() of the captured photo.  The savePackoutProgress call reads
the render-closure state, not the values just handed to the setters:
the steps array it reads shares the step objects that were mutated in
place, so the persisted steps are the updated ones, but the
compliancePhotos binding it reads is still the pre-capture list (the
functional setCompliancePhotos update never reaches the closure), so
the captured photo is ABSENT from the persisted session.  An
out-of-range currentStepIndex would throw in the source and is
excluded by the theorems. -/
def handleCameraCapture (orderId : Int) (nowIso : String) (nowMs : Nat)
    (uri : String) (st : ScreenState) (store : Store) : ScreenState × Store :=
  match st.packoutSteps[st.currentStepIndex]? with
  | none => (st, store)
  | some step =>
    let step2 := { step with photoTaken := true, photoUri := some uri }
    let allItemsCompleted := step2.checklistItems.all (fun it => it.completed)
    let step3 := { step2 with completed := allItemsCompleted && step2.photoTaken }
    let compliancePhoto : CompliancePhoto :=
      { uri := uri, type := st.cameraType, notes := st.photoNotes
      , timestamp := JsDate.date nowMs }
    let st2 := { st with
        packoutSteps := st.packoutSteps.set st.currentStepIndex step3,
        compliancePhotos := st.compliancePhotos ++ [compliancePhoto],
        showCamera := false }
    let persisted := { st2 with compliancePhotos := st.compliancePhotos }
    (st2, savePackoutProgress orderId nowIso persisted store)

/-- Outcome of handleNextStep: the StepIncomplete alert, a normal
index advance, or reaching the terminal all-steps-complete state (the
completion modal of the source). -/
inductive AdvanceResult where
  | stepIncomplete : AdvanceResult
  | advanced : AdvanceResult
  | allStepsComplete : AdvanceResult
deriving Repr, DecidableEq

/-- handleNextStep: alerts StepIncomplete when the current step is not
completed (state untouched); otherwise increments the index and
persists when the current step is not the last, and opens the
completion modal without touching the index when it is.  The
savePackoutProgress call reads the render-closure state, so the index
it persists is the PRE-advance one (steps and photos are unchanged by
this handler, so it persists the whole pre-advance state).  An
out-of-range currentStepIndex would throw in the source and is
excluded by the theorems. -/
def handleNextStep (orderId : Int) (nowIso : String)
    (st : ScreenState) (store : Store) : AdvanceResult × ScreenState × Store :=
  match st.packoutSteps[st.currentStepIndex]? with
  | none => (AdvanceResult.stepIncomplete, st, store)
  | some currentStep =>
    if !currentStep.completed then
      (AdvanceResult.stepIncomplete, st, store)
    else if st.currentStepIndex < st.packoutSteps.length - 1 then
      let st2 := { st with currentStepIndex := st.currentStepIndex + 1 }
      (AdvanceResult.advanced, st2, savePackoutProgress orderId nowIso st store)
    else
      (AdvanceResult.allStepsComplete,
       { st with showCompletionModal := true }, store)

/-- handlePreviousStep: decrements the index and persists when it is
positive, otherwise does nothing.  As in handleNextStep, the
savePackoutProgress call reads the render-closure state, so the
persisted index is the PRE-retreat one. -/
def handlePreviousStep (orderId : Int) (nowIso : String)
    (st : ScreenState) (store : Store) : ScreenState × Store :=
  if 0 < st.currentStepIndex then
    let st2 := { st with currentStepIndex := st.currentStepIndex - 1 }
    (st2, savePackoutProgress orderId nowIso st store)
  else
    (st, store)

/-- Outcome of a network call as seen by the caller: a 2xx response or
a network-level failure. -/
inductive NetResult where
  | ok : NetResult
  | netError : NetResult
deriving Repr, DecidableEq

/-- Date.prototype.toISOString applied to a runtime Date-or-string
value: on a Date it yields the ISO string; on a plain string (a
timestamp that went through a JSON round trip) the method does not
exist and the call throws. -/
def jsDateToIso : JsDate → Except Unit String
  | JsDate.date ms => Except.ok (dateToIso ms)
  | JsDate.str _ => Except.error ()

/-- The submission payload built by handleSubmitPackout.  Building it
calls toISOString on every compliance-photo timestamp, so it throws
(Except.error) when any timestamp is a plain string rather than a Date
object. -/
def submissionData (orderId : Int) (nowIso : String) (st : ScreenState) :
    Except Unit Json := do
  let photoJsons ← st.compliancePhotos.mapM (fun p => do
    let ts ← jsDateToIso p.timestamp
    pure (Json.obj
      [ ("type", photoTypeToJson p.type)
      , ("notes", Json.str p.notes)
      , ("timestamp", Json.str ts) ]))
  pure (Json.obj
    [ ("order_id", Json.num orderId)
    , ("steps_completed", Json.arr (st.packoutSteps.map (fun step =>
        Json.obj
          ([ ("step_id", Json.num (Int.ofNat step.id))
           , ("completed", Json.bool step.completed)
           , ("checklist_items", Json.arr (step.checklistItems.map checklistItemToJson)) ]
           ++ (match step.photoUri with
               | some u => [("photo_uri", Json.str u)]
               | none => [])))))
    , ("compliance_photos", Json.arr photoJsons)
    , ("completed_at", Json.str nowIso)
    , ("worker_notes", Json.str "") ])

/-- What handleSubmitPackout tells the caller: the success alert, or
the submission-failed alert saying the data has been saved locally. -/
inductive SubmitOutcome where
  | success : SubmitOutcome
  | failedSavedLocally : SubmitOutcome
deriving Repr, DecidableEq

/-- handleSubmitPackout: reads the access token, builds the submission
payload, posts it with a plain axios call (not through the
packoutTasksAPI service, so no offline enqueue happens anywhere in
this handler); on success removes the packout key of the order; on any
throw (token read failure, payload construction failure, or network
failure) it reaches the catch block, which only alerts that the data
has been saved locally and changes nothing in the store. -/
def handleSubmitPackout (orderId : Int) (nowIso : String)
    (tokenRead : Except Unit (Option String)) (net : NetResult)
    (st : ScreenState) (store : Store) : SubmitOutcome × Store :=
  match tokenRead with
  | Except.error _ => (SubmitOutcome.failedSavedLocally, store)
  | Except.ok _ =>
    match submissionData orderId nowIso st with
    | Except.error _ => (SubmitOutcome.failedSavedLocally, store)
    | Except.ok _payload =>
      match net with
      | NetResult.netError => (SubmitOutcome.failedSavedLocally, store)
      | NetResult.ok =>
          (SubmitOutcome.success, removeItem store (packoutKey orderId))

/-- offlineStorage.storeOfflineData: wraps the payload with an
enqueue timestamp and writes it under offline_ followed by the key. -/
def storeOfflineData (store : Store) (key : String) (data : Json)
    (nowIso : String) : Store :=
  setItem store ("offline_" ++ key)
    (Json.obj [ ("data", data), ("timestamp", Json.str nowIso) ])

/-- String.prototype.startsWith, computed on the character lists (the
built-in String.startsWith is defined by well-founded recursion and
does not reduce inside the kernel). -/
def strStartsWith (s p : String) : Bool :=
  p.data.isPrefixOf s.data

/-- offlineStorage.clearOfflineData with a key: removes that one
envelope; without a key: removes every key that starts with offline_. -/
def clearOfflineData (store : Store) (key : Option String) : Store :=
  match key with
  | some k => removeItem store ("offline_" ++ k)
  | none =>
      multiRemove store
        ((getAllKeys store).filter (fun k => strStartsWith k "offline_"))

/-- offlineStorage.syncOfflineData: filters the offline_ keys, reads
each one and logs a line for it; it never invokes any submit call,
never removes an envelope and returns no counts.  The returned list is
the log, the store comes back untouched because the loop body only
reads. -/
def syncOfflineData (store : Store) : Store × List String :=
  let offlineKeys := (getAllKeys store).filter (fun k => strStartsWith k "offline_")
  let logs := offlineKeys.filterMap (fun k =>
    match getItem store k with
    | some _ => some ("Syncing offline data for key: " ++ k)
    | none => none)
  (store, logs)

/-- tokenManager.clearTokens: removes the four token keys. -/
def clearTokens (store : Store) : Store :=
  multiRemove store ["access_token", "token_type", "username", "token_expires_in"]

/-- authAPI.logout: clears the tokens and then clears ALL offline data
(clearOfflineData with no key). -/
def logout (store : Store) : Store :=
  clearOfflineData (clearTokens store) none

/-- tokenManager.getToken: the stored access token, or null when the
read throws. -/
def getToken (read : Except Unit (Option String)) : Option String :=
  match read with
  | Except.ok t => t
  | Except.error _ => none

/-- tokenManager.isAuthenticated: double negation of the stored token
(JavaScript truthiness: null and the empty string are falsy); a read
failure is caught and yields false. -/
def isAuthenticated (read : Except Unit (Option String)) : Bool :=
  match read with
  | Except.error _ => false
  | Except.ok none => false
  | Except.ok (some t) => t != ""

/-- Spread of the task payload object extended with the
offline_timestamp field, as built in the catch block of completeTask. -/
def withOfflineTimestamp (payload : Json) (nowIso : String) : Json :=
  match payload with
  | Json.obj fs => Json.obj (fs ++ [("offline_timestamp", Json.str nowIso)])
  | j => j

/-- packoutTasksAPI.completeTask: posts the task payload; on failure it
stores the payload (extended with an offline_timestamp) for offline
sync under complete_task_, the order id and the current epoch
milliseconds, then rethrows.  The first component is the thrown or
returned result, the second the store after the call.  orderId is the
order_id field of the payload. -/
def completeTask (orderId : Int) (nowMs : Nat) (nowIso : String)
    (net : NetResult) (payload : Json) (store : Store) :
    Except Unit Unit × Store :=
  match net with
  | NetResult.ok => (Except.ok (), store)
  | NetResult.netError =>
      (Except.error (),
       storeOfflineData store
         ("complete_task_" ++ toString orderId ++ "_" ++ toString nowMs)
         (withOfflineTimestamp payload nowIso) nowIso)

/-- Customer block of a scanned order. -/
structure CustomerInfo where
  name : String
  email : String
deriving Repr, DecidableEq

/-- One order line item. -/
structure OrderItem where
  sku : String
  name : String
  quantity : Nat
deriving Repr, DecidableEq

/-- ScannedOrder, fields as in the ScannerScreen interface. -/
structure ScannedOrder where
  id : Nat
  order_number : String
  customer_info : CustomerInfo
  items : List OrderItem
  status : String
  priority : String
deriving Repr, DecidableEq

/-- JavaScript String.prototype.slice with argument -6: the last six
characters (the whole string when it is shorter). -/
def sliceLast6 (s : String) : String :=
  s.drop (s.length - 6)

/-- The mock order fabricated in the catch block of fetchOrderData: a
function of the barcode alone (constant id 1, order number derived
from the last six characters of the barcode, fixed customer and
items). -/
def mockOrder (barcode : String) : ScannedOrder :=
  { id := 1
  , order_number := "ORD-" ++ sliceLast6 barcode
  , customer_info := { name := "John Smith", email := "john.smith@example.com" }
  , items :=
      [ { sku := "SKU-001", name := "Product A", quantity := 2 }
      , { sku := "SKU-002", name := "Product B", quantity := 1 } ]
  , status := "pending"
  , priority := "normal" }

/-- fetchOrderData: on a successful by-barcode resolution the server
order is shown; on any failure the mock order is shown instead.  The
result is the (orderData, showOrderModal) pair the screen ends in —
note the type carries no marker distinguishing the two paths. -/
def fetchOrderData (response : Except Unit ScannedOrder) (barcode : String) :
    ScannedOrder × Bool :=
  match response with
  | Except.ok order => (order, true)
  | Except.error _ => (mockOrder barcode, true)

/-- The notes TextInput of the camera modal (setPhotoNotes). -/
def setPhotoNotes (notes : String) (st : ScreenState) : ScreenState :=
  { st with photoNotes := notes }

/-- The recordPhoto operation of the specification as realized by the
screen: open the camera for a category (handleTakePhoto), type the
notes, then capture (handleCameraCapture). -/
def recordPhoto (orderId : Int) (nowIso : String) (nowMs : Nat)
    (category : PhotoType) (uri : String) (notes : String)
    (st : ScreenState) (store : Store) : ScreenState × Store :=
  handleCameraCapture orderId nowIso nowMs uri
    (setPhotoNotes notes (handleTakePhoto category st)) store

/-- The derived-flag invariant of one step: completed equals the
conjunction of every checklist item being completed and photoRequired
implying photoTaken. -/
def stepInvariant (step : PackoutStep) : Prop :=
  step.completed =
    (step.checklistItems.all (fun it => it.completed) &&
     (!step.photoRequired || step.photoTaken))

instance (step : PackoutStep) : Decidable (stepInvariant step) := by
  unfold stepInvariant; infer_instance

/-- The invariant for every step of a list. -/
def stepsInvariant (steps : List PackoutStep) : Prop :=
  ∀ step ∈ steps, stepInvariant step

instance (steps : List PackoutStep) : Decidable (stepsInvariant steps) := by
  unfold stepsInvariant; infer_instance

/-- States of the packout screen reachable from its initial state by
the user-facing operations (checklist toggles, photo capture, note
typing, forward and backward navigation). -/
inductive Reachable : ScreenState → Store → Prop where
  | init : ∀ store, Reachable initialScreenState store
  | toggle : ∀ (o : Int) (n : String) (i j : Nat) {st store},
      Reachable st store →
      Reachable (handleChecklistItemToggle o n i j st store).1
                (handleChecklistItemToggle o n i j st store).2
  | takePhoto : ∀ (c : PhotoType) {st store}, Reachable st store →
      Reachable (handleTakePhoto c st) store
  | setNotes : ∀ (notes : String) {st store}, Reachable st store →
      Reachable (setPhotoNotes notes st) store
  | capture : ∀ (o : Int) (n : String) (ms : Nat) (uri : String) {st store},
      Reachable st store →
      Reachable (handleCameraCapture o n ms uri st store).1
                (handleCameraCapture o n ms uri st store).2
  | next : ∀ (o : Int) (n : String) {st store}, Reachable st store →
      Reachable (handleNextStep o n st store).2.1 (handleNextStep o n st store).2.2
  | prev : ∀ (o : Int) (n : String) {st store}, Reachable st store →
      Reachable (handlePreviousStep o n st store).1 (handlePreviousStep o n st store).2

/-- Number of queued offline envelopes in a store. -/
def offlineKeysCount (store : Store) : Nat :=
  ((getAllKeys store).filter (fun k => strStartsWith k "offline_")).length

/-- A store holding the persisted packout session of order 42 and no
offline envelopes, as it looks right before submission. -/
def demoSubmitStore : Store :=
  savePackoutProgress 42 "2024-01-01T00:00:00.000Z" initialScreenState ([] : Store)

/-- A store holding exactly one queued offline envelope, the task
completion of order 42 enqueued at epoch milliseconds 1700000000000,
never replayed. -/
def demoQueueStore : Store :=
  storeOfflineData ([] : Store)
    ("complete_task_" ++ toString (42 : Int) ++ "_" ++ toString (1700000000000 : Nat))
    (Json.obj [("order_id", Json.num 42)]) "2023-11-14T22:13:20.000Z"

/-- The in-memory image of a compliance photo after one persistence
round trip. -/
def photoAfterRoundTrip (p : CompliancePhoto) : CompliancePhoto :=
  { p with timestamp := jsDateRoundTrip p.timestamp }

/-- The screen state right after capturing the mandatory photo of the
first step at epoch time zero. -/
def demoPhotoState : ScreenState :=
  (recordPhoto 42 "1970-01-01T00:00:00.000Z" 0 PhotoType.package
    "file:///photo1.jpg" "" initialScreenState ([] : Store)).1

/-- The updated current step after a capture: photo taken, uri stored,
completed recomputed from the checklist (the photo conjunct is now
true). -/
def stepAfterPhoto (step : PackoutStep) (uri : String) : PackoutStep :=
  { step with photoTaken := true,
              photoUri := some uri,
              completed := step.checklistItems.all (fun it => it.completed) }

/-- Toggling a checklist item preserves the derived-flag invariant: the
touched step is recomputed from its sources, the others are unchanged. -/
theorem stepsInvariant_toggle (o : Int) (n : String) (i j : Nat)
    (st : ScreenState) (store : Store)
    (h : stepsInvariant st.packoutSteps) :
    stepsInvariant (handleChecklistItemToggle o n i j st store).1.packoutSteps := by
  unfold handleChecklistItemToggle
  split
  · exact h
  · split
    · exact h
    · intro x hx
      rcases List.mem_or_eq_of_mem_set hx with hmem | rfl
      · exact h x hmem
      · unfold stepInvariant
        rfl

/-- Capturing a photo preserves the derived-flag invariant: photoTaken
becomes true and completed is recomputed. -/
theorem stepsInvariant_capture (o : Int) (n : String) (ms : Nat) (uri : String)
    (st : ScreenState) (store : Store)
    (h : stepsInvariant st.packoutSteps) :
    stepsInvariant (handleCameraCapture o n ms uri st store).1.packoutSteps := by
  unfold handleCameraCapture
  split
  · exact h
  · intro x hx
    rcases List.mem_or_eq_of_mem_set hx with hmem | rfl
    · exact h x hmem
    · unfold stepInvariant
      simp

/-- Forward navigation does not modify the steps. -/
theorem stepsInvariant_next (o : Int) (n : String)
    (st : ScreenState) (store : Store)
    (h : stepsInvariant st.packoutSteps) :
    stepsInvariant (handleNextStep o n st store).2.1.packoutSteps := by
  unfold handleNextStep
  split
  · exact h
  · split
    · exact h
    · split
      · exact h
      · exact h

/-- Backward navigation does not modify the steps. -/
theorem stepsInvariant_prev (o : Int) (n : String)
    (st : ScreenState) (store : Store)
    (h : stepsInvariant st.packoutSteps) :
    stepsInvariant (handlePreviousStep o n st store).1.packoutSteps := by
  unfold handlePreviousStep
  split
  · exact h
  · exact h

/-- C1: in every reachable state of the packout screen — in particular
after every checklist toggle and every photo capture — every step
satisfies completed = (all checklist items completed) AND
(photoRequired implies photoTaken); the flag is only ever recomputed
from those sources. -/
theorem packout_completed_invariant (st : ScreenState) (store : Store)
    (h : Reachable st store) : stepsInvariant st.packoutSteps := by
  induction h with
  | init store => decide
  | toggle o n i j _ ih => exact stepsInvariant_toggle o n i j _ _ ih
  | takePhoto c _ ih => exact ih
  | setNotes notes _ ih => exact ih
  | capture o n ms uri _ ih => exact stepsInvariant_capture o n ms uri _ _ ih
  | next o n _ ih => exact stepsInvariant_next o n _ _ ih
  | prev o n _ ih => exact stepsInvariant_prev o n _ _ ih

/-- Witness for C1: the invariant holds in the concrete initial state,
obtained by applying the reachability theorem there. -/
theorem packout_completed_invariant_witness :
    stepsInvariant initialScreenState.packoutSteps :=
  packout_completed_invariant initialScreenState ([] : Store)
    (Reachable.init ([] : Store))

/-- C2: advance with an incomplete current step fails with
StepIncomplete and leaves everything unchanged; with a completed
non-last step it increments the index by exactly one; with a completed
last step it reaches the all-steps-complete state (completion modal)
without touching the index. -/
theorem handleNextStep_spec (o : Int) (n : String)
    (st : ScreenState) (store : Store) (currentStep : PackoutStep)
    (hc : st.packoutSteps[st.currentStepIndex]? = some currentStep) :
    (currentStep.completed = false →
       handleNextStep o n st store = (AdvanceResult.stepIncomplete, st, store)) ∧
    (currentStep.completed = true →
     st.currentStepIndex < st.packoutSteps.length - 1 →
       (handleNextStep o n st store).1 = AdvanceResult.advanced ∧
       (handleNextStep o n st store).2.1.currentStepIndex = st.currentStepIndex + 1) ∧
    (currentStep.completed = true →
     st.currentStepIndex = st.packoutSteps.length - 1 →
       (handleNextStep o n st store).1 = AdvanceResult.allStepsComplete ∧
       (handleNextStep o n st store).2.1.currentStepIndex = st.currentStepIndex ∧
       (handleNextStep o n st store).2.1.showCompletionModal = true) := by
  unfold handleNextStep
  rw [hc]
  refine ⟨?_, ?_, ?_⟩
  · intro hnc
    simp [hnc]
  · intro hcomp hlt
    simp [hcomp, hlt]
  · intro hcomp heq
    have hnlt : ¬ st.currentStepIndex < st.packoutSteps.length - 1 := by omega
    simp [hcomp, hnlt]

/-- Witness for C2: on the initial screen state (step one incomplete)
advance fails with StepIncomplete and changes nothing. -/
theorem handleNextStep_spec_witness :
    handleNextStep 42 "t" initialScreenState ([] : Store) =
      (AdvanceResult.stepIncomplete, initialScreenState, ([] : Store)) := by
  have h := handleNextStep_spec 42 "t" initialScreenState ([] : Store) _ rfl
  exact h.1 rfl

/-- C10: toggling a checklist item id that does not occur in the
addressed step leaves the screen state and the store (hence
persistence) completely unchanged. -/
theorem toggle_unknown_item_noop (o : Int) (n : String) (i j : Nat)
    (st : ScreenState) (store : Store) (step : PackoutStep)
    (hs : st.packoutSteps[i]? = some step)
    (hj : ∀ it ∈ step.checklistItems, it.id ≠ j) :
    handleChecklistItemToggle o n i j st store = (st, store) := by
  unfold handleChecklistItemToggle
  rw [hs]
  have hf : step.checklistItems.find? (fun it => it.id == j) = none := by
    apply List.find?_eq_none.mpr
    intro it hit
    simpa using hj it hit
  simp only [hf]

/-- Witness for C10: toggling item id 99 on step 0 of the initial
state is a no-op. -/
theorem toggle_unknown_item_noop_witness :
    handleChecklistItemToggle 42 "t" 0 99 initialScreenState ([] : Store) =
      (initialScreenState, ([] : Store)) :=
  toggle_unknown_item_noop 42 "t" 0 99 initialScreenState ([] : Store) _ rfl
    (by decide)

/-- C3 counterexample: a submit that ends in a network failure
enqueues NOTHING — the offline queue holds zero envelopes afterwards,
not the one new envelope the claim requires — because the screen posts
with a plain axios call whose catch block never calls the offline
manager. -/
theorem submit_failure_enqueues_nothing_cex :
    (handleSubmitPackout 42 "2024-01-01T00:00:01.000Z" (Except.ok (some "tok"))
        NetResult.netError initialScreenState demoSubmitStore).2 = demoSubmitStore ∧
    offlineKeysCount demoSubmitStore = 0 ∧
    ¬ offlineKeysCount (handleSubmitPackout 42 "2024-01-01T00:00:01.000Z"
        (Except.ok (some "tok")) NetResult.netError initialScreenState
        demoSubmitStore).2 =
      offlineKeysCount demoSubmitStore + 1 ∧
    (handleSubmitPackout 42 "2024-01-01T00:00:01.000Z" (Except.ok (some "tok"))
        NetResult.netError initialScreenState demoSubmitStore).1 =
      SubmitOutcome.failedSavedLocally := by
  refine ⟨rfl, rfl, by decide, rfl⟩

/-- C3 amended: a submit that ends in a network failure leaves the
store completely unchanged — so the persisted PackoutSession under
packout_ and the order id is left intact and no offline envelope is
added (rather than exactly one) — and the caller is told the data was
saved locally rather than given a hard failure. -/
theorem submit_failure_leaves_store_intact (o : Int) (n : String)
    (tok : Except Unit (Option String)) (st : ScreenState) (store : Store) :
    handleSubmitPackout o n tok NetResult.netError st store =
      (SubmitOutcome.failedSavedLocally, store) := by
  unfold handleSubmitPackout
  cases tok with
  | error e => rfl
  | ok t =>
    cases submissionData o n st with
    | error e => rfl
    | ok p => rfl

/-- C4: the drain operation (offlineStorage.syncOfflineData) returns
the store untouched for every store — it invokes no submit call and
removes no envelope — and on a store with one queued envelope it
produces only a log line for that key while leaving the envelope
queued. -/
theorem syncOfflineData_no_removal_no_submit :
    (∀ store : Store, (syncOfflineData store).1 = store) ∧
    (syncOfflineData demoQueueStore).2 =
      ["Syncing offline data for key: offline_complete_task_42_1700000000000"] ∧
    (getItem (syncOfflineData demoQueueStore).1
       "offline_complete_task_42_1700000000000").isSome = true := by
  refine ⟨fun _ => rfl, rfl, rfl⟩

/-- C5 counterexample: logout removes a queued envelope that was never
successfully replayed (logout performs no submission at all, yet the
envelope is gone afterwards). -/
theorem logout_deletes_unreplayed_envelope_cex :
    (getItem demoQueueStore "offline_complete_task_42_1700000000000").isSome = true ∧
    getItem (logout demoQueueStore) "offline_complete_task_42_1700000000000" = none := by
  exact ⟨rfl, rfl⟩

/-- Clearing all offline data removes every envelope key. -/
theorem getItem_clearOfflineData_all (s : Store) (k : String)
    (hk : strStartsWith k "offline_" = true) :
    getItem (clearOfflineData s none) k = none := by
  unfold clearOfflineData multiRemove getItem
  have hfind : List.find? (fun kv => kv.1 == k)
      (List.filter
        (fun kv => !(((getAllKeys s).filter (fun k2 => strStartsWith k2 "offline_")).contains kv.1))
        s) = none := by
    apply List.find?_eq_none.mpr
    intro kv hkv hbeq
    rcases List.mem_filter.mp hkv with ⟨hmem, hcond⟩
    have hkk : kv.1 = k := by simpa using hbeq
    simp at hcond
    rcases hcond with h1 | h2
    · exact h1 (List.mem_map.mpr ⟨kv, hmem, rfl⟩)
    · rw [hkk] at h2
      exact absurd hk (by simp [h2])
  rw [hfind]
  rfl

/-- C5 amended: deletion of envelopes is not gated on successful
replay — drain (syncOfflineData) removes nothing at all, while logout
unconditionally deletes every queued envelope, replayed or not. -/
theorem envelope_removal_not_gated_on_replay (store : Store) (k : String)
    (hk : strStartsWith k "offline_" = true) :
    (syncOfflineData store).1 = store ∧ getItem (logout store) k = none := by
  exact ⟨rfl, getItem_clearOfflineData_all (clearTokens store) k hk⟩

/-- Witness for the amended C5 on the one-envelope store. -/
theorem envelope_removal_not_gated_on_replay_witness :
    (syncOfflineData demoQueueStore).1 = demoQueueStore ∧
    getItem (logout demoQueueStore) "offline_complete_task_42_1700000000000" = none :=
  envelope_removal_not_gated_on_replay demoQueueStore
    "offline_complete_task_42_1700000000000" (by decide)

/-- Reading back the key just written returns the written value. -/
theorem getItem_setItem (s : Store) (k : String) (v : Json) :
    getItem (setItem s k v) k = some v := by
  unfold getItem setItem
  simp [List.find?_cons]

/-- Decoding after encoding elementwise succeeds on whole lists, with
the elementwise translation applied. -/
theorem optionMapList_map {α β γ : Type} (f : α → β) (g : β → Option γ)
    (t : α → γ) (h : ∀ a, g (f a) = some (t a)) (xs : List α) :
    optionMapList g (xs.map f) = some (xs.map t) := by
  induction xs with
  | nil => rfl
  | cons x xs ih => simp [optionMapList, h, ih]

/-- Decoding after encoding elementwise is the identity on whole
lists when it is the identity on elements. -/
theorem optionMapList_roundTrip {α β : Type} (f : α → β) (g : β → Option α)
    (h : ∀ a, g (f a) = some a) (xs : List α) :
    optionMapList g (xs.map f) = some xs := by
  simpa using optionMapList_map f g id h xs

/-- One checklist item survives the JSON round trip unchanged. -/
theorem jsonToChecklistItem_roundTrip (it : ChecklistItem) :
    jsonToChecklistItem (checklistItemToJson it) = some it := by
  cases it
  simp [checklistItemToJson, jsonToChecklistItem]

/-- A list of strings survives the JSON round trip unchanged. -/
theorem jsonToStringList_roundTrip (xs : List String) :
    jsonToStringList (xs.map Json.str) = some xs := by
  unfold jsonToStringList
  exact optionMapList_roundTrip Json.str _ (fun a => rfl) xs

/-- One packout step survives the JSON round trip unchanged (all its
fields are booleans, numbers, strings or lists of those). -/
theorem jsonToStep_roundTrip (step : PackoutStep) :
    jsonToStep (stepToJson step) = some step := by
  have h1 := jsonToStringList_roundTrip step.instructions
  have h2 := optionMapList_roundTrip checklistItemToJson jsonToChecklistItem
    jsonToChecklistItem_roundTrip step.checklistItems
  cases step with
  | mk id title descr req comp pr pt uri ins cls =>
    cases uri with
    | none => simp_all [stepToJson, jsonToStep]
    | some u => simp_all [stepToJson, jsonToStep]

/-- One compliance photo comes back from the JSON round trip with its
timestamp replaced by the plain ISO string (a Date object does not
survive JSON.parse). -/
theorem jsonToPhoto_roundTrip (p : CompliancePhoto) :
    jsonToPhoto (photoToJson p) = some (photoAfterRoundTrip p) := by
  cases p with
  | mk uri ty notes ts =>
    cases ts with
    | date ms =>
      cases ty <;>
        simp [photoToJson, jsonToPhoto, photoTypeToJson, jsonToPhotoType,
          jsDateToJson, jsDateRoundTrip, photoAfterRoundTrip]
    | str s =>
      cases ty <;>
        simp [photoToJson, jsonToPhoto, photoTypeToJson, jsonToPhotoType,
          jsDateToJson, jsDateRoundTrip, photoAfterRoundTrip]

/-- C6 amended: persisting and reloading with no intervening mutation
reproduces the steps and the current index exactly, and the compliance
photos up to each Date timestamp coming back as its ISO string — the
round trip is lossless except for the runtime type of the photo
timestamps. -/
theorem loadPackoutProgress_roundTrip (orderId : Int) (nowIso : String)
    (saved fresh : ScreenState) (store : Store) :
    loadPackoutProgress orderId fresh
        (savePackoutProgress orderId nowIso saved store) =
      { fresh with packoutSteps := saved.packoutSteps
                 , compliancePhotos := saved.compliancePhotos.map photoAfterRoundTrip
                 , currentStepIndex := saved.currentStepIndex } := by
  unfold loadPackoutProgress savePackoutProgress
  rw [getItem_setItem]
  have hsteps := optionMapList_roundTrip stepToJson jsonToStep
    jsonToStep_roundTrip saved.packoutSteps
  have hphotos := optionMapList_map photoToJson jsonToPhoto photoAfterRoundTrip
    jsonToPhoto_roundTrip saved.compliancePhotos
  simp [progressToJson, List.find?_cons, hsteps, hphotos]

/-- C6 counterexample: a session holding one compliance photo does NOT
reload identically — the photo timestamp comes back as the ISO string
instead of the Date object, so the round trip is not lossless. -/
theorem persistence_roundTrip_not_lossless_cex :
    (loadPackoutProgress 42 initialScreenState
        (savePackoutProgress 42 "1970-01-01T00:00:00.000Z" demoPhotoState
          ([] : Store))).compliancePhotos
      ≠ demoPhotoState.compliancePhotos := by decide

/-- C7 counterexample: recording a photo with the optional damage
category still sets the mandatory per-step photoTaken flag of the
current step, although the claim reserves that flag for the mandatory
per-step photo. -/
theorem recordPhoto_damage_sets_photoTaken_cex :
    (∀ step ∈ initialScreenState.packoutSteps, step.photoTaken = false) ∧
    ((recordPhoto 42 "t" 0 PhotoType.damage "file:///dmg.jpg" "scratch"
        initialScreenState ([] : Store)).1.packoutSteps.map
          (fun step => step.photoTaken)) = [true, false, false, false, false] := by
  exact ⟨by decide, by decide⟩

/-- C7 amended: for EVERY category — not only the mandatory per-step
one — recordPhoto marks the current step photo as taken, stores the
uri, recomputes the completed flag of the current step, appends the
photo to the in-memory compliancePhotos and leaves the index alone;
the handler persists the session with the updated steps but with the
PRE-capture photos list (savePackoutProgress reads the stale closure
state, so the captured photo is absent from the persisted session). -/
theorem recordPhoto_spec (o : Int) (n : String) (ms : Nat)
    (category : PhotoType) (uri notes : String)
    (st : ScreenState) (store : Store) (step : PackoutStep)
    (hs : st.packoutSteps[st.currentStepIndex]? = some step) :
    (recordPhoto o n ms category uri notes st store).1.packoutSteps =
      st.packoutSteps.set st.currentStepIndex (stepAfterPhoto step uri) ∧
    (recordPhoto o n ms category uri notes st store).1.compliancePhotos =
      st.compliancePhotos ++
        [{ uri := uri, type := category, notes := notes,
           timestamp := JsDate.date ms }] ∧
    (recordPhoto o n ms category uri notes st store).1.currentStepIndex =
      st.currentStepIndex ∧
    (recordPhoto o n ms category uri notes st store).2 =
      savePackoutProgress o n
        { (recordPhoto o n ms category uri notes st store).1 with
            compliancePhotos := st.compliancePhotos }
        store := by
  unfold recordPhoto handleCameraCapture setPhotoNotes handleTakePhoto
  simp [hs, stepAfterPhoto]

/-- Witness for the amended C7 at the initial state. -/
theorem recordPhoto_spec_witness :
    (recordPhoto 42 "t" 0 PhotoType.package "file:///p.jpg" ""
        initialScreenState ([] : Store)).1.currentStepIndex = 0 :=
  (recordPhoto_spec 42 "t" 0 PhotoType.package "file:///p.jpg" ""
    initialScreenState ([] : Store) _ rfl).2.2.1

/-- C8 counterexample: the failure result of fetchOrderData equals a
success result on the very same order value, so the caller cannot
tell the degraded path apart — the result is not marked as degraded. -/
theorem fetchOrderData_no_degraded_marking_cex :
    fetchOrderData (Except.error ()) "WH-123456789" =
      fetchOrderData (Except.ok (mockOrder "WH-123456789")) "WH-123456789" := rfl

/-- C8 amended: on any resolution failure fetchOrderData returns the
locally synthesized placeholder order, a deterministic function of the
scanned code alone, and shows it — but the result carries no degraded
marking: it is identical to what a successful server resolution of
that same order value produces. -/
theorem fetchOrderData_fallback_spec (e : Unit) (barcode : String) :
    fetchOrderData (Except.error e) barcode = (mockOrder barcode, true) ∧
    fetchOrderData (Except.error e) barcode =
      fetchOrderData (Except.ok (mockOrder barcode)) barcode :=
  ⟨rfl, rfl⟩

/-- C9 counterexample: with an empty-string token stored a credential
exists (getToken is some), yet isAuthenticated returns false — the
double negation tests JavaScript truthiness, not existence. -/
theorem isAuthenticated_empty_token_cex :
    (getToken (Except.ok (some ""))).isSome = true ∧
    isAuthenticated (Except.ok (some "")) = false := by
  exact ⟨rfl, by decide⟩

/-- C9 amended: isAuthenticated returns true exactly when a stored
credential exists AND is non-empty (truthiness of the token string);
every persistence read error is swallowed into false, never
propagated. -/
theorem isAuthenticated_spec (read : Except Unit (Option String)) :
    (isAuthenticated read = true ↔ ∃ t, getToken read = some t ∧ t ≠ "") ∧
    (∀ e, read = Except.error e → isAuthenticated read = false) := by
  constructor
  · cases read with
    | error e => simp [isAuthenticated, getToken]
    | ok t =>
      cases t with
      | none => simp [isAuthenticated, getToken]
      | some s => simp [isAuthenticated, getToken]
  · intro e he
    subst he
    rfl

/-- Witness for the amended C9: a failing read yields false. -/
theorem isAuthenticated_spec_witness :
    isAuthenticated (Except.error ()) = false :=
  (isAuthenticated_spec (Except.error ())).2 () rfl
